import Mathlib

/-!
Shallow embedding of the OCPP 1.6 charge-point protocol runtime
(`src/lib/ocpp/v16/charge_point.cpp`) for checking the natural-language
specification against the code.  Each definition mirrors one function or
code region of the source; theorems at the end settle the spec claims.
-/

namespace OCPP16

/-- Message types appearing in the modelled code paths (a subset of the
full OCPP 1.6 `MessageType` enum; only the constructors the modelled
handlers mention are needed). -/
inductive MessageType where
  | BootNotification
  | BootNotificationResponse
  | StopTransaction
  | StopTransactionResponse
  | StartTransactionResponse
  | Heartbeat
  | StatusNotification
  | MeterValues
  | Authorize
  | AuthorizeResponse
  | ChangeAvailability
  | ChangeAvailabilityResponse
  | RemoteStartTransaction
  | RemoteStartTransactionResponse
  | SendLocalList
  | SendLocalListResponse
  | GetLocalListVersion
  | GetLocalListVersionResponse
  deriving DecidableEq, Repr

/-- `RegistrationStatus` from the boot handshake. -/
inductive RegistrationStatus where
  | Accepted
  | Pending
  | Rejected
  deriving DecidableEq, Repr

/-- `ChargePointConnectionState`. -/
inductive ChargePointConnectionState where
  | Disconnected
  | Connected
  | Pending
  | Rejected
  | Booted
  deriving DecidableEq, Repr

/-- `AvailabilityType` (requested availability in ChangeAvailability). -/
inductive AvailabilityType where
  | Operative
  | Inoperative
  deriving DecidableEq, Repr

/-- `AvailabilityStatus` (ChangeAvailability response status). -/
inductive AvailabilityStatus where
  | Accepted
  | Rejected
  | Scheduled
  deriving DecidableEq, Repr

/-- `AuthorizationStatus` of an IdTagInfo. -/
inductive AuthorizationStatus where
  | Accepted
  | Blocked
  | Expired
  | Invalid
  | ConcurrentTx
  deriving DecidableEq, Repr

/-- `ChargePointStatus` of a connector FSM (only used as an opaque payload
of StatusNotification here). -/
inductive ChargePointStatus where
  | Available
  | Preparing
  | Charging
  | SuspendedEV
  | SuspendedEVSE
  | Finishing
  | Reserved
  | Unavailable
  | Faulted
  deriving DecidableEq, Repr

/-- `SupportedFeatureProfiles` configuration values. -/
inductive SupportedFeatureProfiles where
  | Core
  | FirmwareManagement
  | LocalAuthListManagement
  | Reservation
  | SmartCharging
  | RemoteTrigger
  | Security
  deriving DecidableEq, Repr

/-- `UpdateType` of a SendLocalList request. -/
inductive UpdateType where
  | Differential
  | Full
  deriving DecidableEq, Repr

/-- `UpdateStatus` of a SendLocalList response. -/
inductive UpdateStatus where
  | Accepted
  | Failed
  | NotSupported
  | VersionMismatch
  deriving DecidableEq, Repr

/-- `RemoteStartStopStatus`. -/
inductive RemoteStartStopStatus where
  | Accepted
  | Rejected
  deriving DecidableEq, Repr

/-- The slice of charge-point state read by
`ChargePoint::allowed_to_send_message`: the `initialized` flag (set at the
first BootNotificationResponse), the registration status, the boot time
(set at every BootNotificationResponse) and the configured
HeartbeatInterval.  Times are modelled as integers (seconds). -/
structure SendGateState where
  initialized : Bool
  registration_status : RegistrationStatus
  boot_time : Int
  heartbeat_interval : Int
  deriving DecidableEq, Repr

/-- `ChargePoint::allowed_to_send_message` (charge_point.cpp:1973-2002).
`now` is `date::utc_clock::now()`.  Mirrors the source exactly:
* not initialized: only BootNotification / StopTransaction pass;
* Rejected: false while `now < boot_time + heartbeat_interval`, true
  afterwards (for every message type — the function falls through to the
  final `return true`);
* Pending: only BootNotification / StopTransaction pass;
* otherwise (Accepted): true. -/
def allowed_to_send_message (s : SendGateState) (now : Int)
    (message_type : MessageType) : Bool :=
  if !s.initialized then
    message_type = MessageType.BootNotification ||
      message_type = MessageType.StopTransaction
  else if s.registration_status = RegistrationStatus.Rejected then
    if now < s.boot_time + s.heartbeat_interval then false else true
  else if s.registration_status = RegistrationStatus.Pending then
    message_type = MessageType.BootNotification ||
      message_type = MessageType.StopTransaction
  else
    true

/-- An outbound wire frame: a Call, a CallResult or a CallError. -/
inductive Frame where
  | call (mt : MessageType)
  | callResult (mt : MessageType)
  | callError
  deriving DecidableEq, Repr

/-- Whether a frame reaches the websocket.
`ChargePoint::send<Call>` (charge_point.cpp:2004-2010) consults
`allowed_to_send_message`; `ChargePoint::send<CallResult>`
(charge_point.cpp:2016-2018) and `ChargePoint::send(CallError)`
(charge_point.cpp:2020-2022) call `websocket->send` directly with no
gating. -/
def transmits (s : SendGateState) (now : Int) : Frame → Bool
  | Frame.call mt => allowed_to_send_message s now mt
  | Frame.callResult _ => true
  | Frame.callError => true

/-- The physical connectors `1 .. n` (ids as `Int`, matching the `int32_t`
connector ids of the source), in the order the source's `for` loops visit
them. -/
def physicalConnectors (n : Nat) : List Int :=
  (List.range n).map (fun i => (i : Int) + 1)

/-- Outcome of `ChargePoint::handleChangeAvailabilityRequest`: the
response status, the writes to `change_availability_queue`, the connector
ids passed to `insert_or_update_connector_availability`, and the FSM
events submitted (`(connector, Operative)` for `Event_BecomeAvailable`,
`(connector, Inoperative)` for `Event_ChangeAvailabilityToUnavailable`).
The enable/disable EVSE callbacks are invoked for exactly the `events`
connectors. -/
structure ChangeAvailabilityOutcome where
  status : AvailabilityStatus
  queued : List (Int × AvailabilityType)
  persisted_connectors : List Int
  events : List (Int × AvailabilityType)
  deriving DecidableEq, Repr

/-- `ChargePoint::handleChangeAvailabilityRequest`
(charge_point.cpp:910-971).  `number_of_connectors` is
`getNumberOfConnectors()`, `transaction_active c` is
`transaction_handler->transaction_active(c)`.
* Out-of-range connector id (`connectorId > N` or `< 0`): Rejected.
* `connectorId = 0`: the loop over connectors `1..N` queues the requested
  type for each connector with an active transaction and collects the
  others into `connectors`.
* `connectorId ≥ 1`: an active transaction only sets
  `transaction_running`; nothing is queued (the source writes
  `change_availability_queue` only inside the `connectorId == 0` loop).
* If any targeted connector had an active transaction: Scheduled, and the
  collected `connectors` are neither persisted nor driven through the FSM.
* Otherwise: Accepted, availability persisted for `connectors`, callbacks
  and FSM events submitted per connector. -/
def handleChangeAvailabilityRequest (number_of_connectors : Nat)
    (transaction_active : Int → Bool) (connectorId : Int)
    (ty : AvailabilityType) : ChangeAvailabilityOutcome :=
  if connectorId ≤ (number_of_connectors : Int) ∧ 0 ≤ connectorId then
    let queued :=
      if connectorId = 0 then
        ((physicalConnectors number_of_connectors).filter
          transaction_active).map (fun c => (c, ty))
      else []
    let connectors :=
      if connectorId = 0 then
        (physicalConnectors number_of_connectors).filter
          (fun c => !transaction_active c)
      else if transaction_active connectorId then []
      else [connectorId]
    let transaction_running :=
      if connectorId = 0 then
        (physicalConnectors number_of_connectors).any transaction_active
      else transaction_active connectorId
    if transaction_running then
      { status := AvailabilityStatus.Scheduled, queued := queued,
        persisted_connectors := [], events := [] }
    else
      { status := AvailabilityStatus.Accepted, queued := queued,
        persisted_connectors := connectors,
        events := connectors.map (fun c => (c, ty)) }
  else
    { status := AvailabilityStatus.Rejected, queued := [],
      persisted_connectors := [], events := [] }

/-- An IdTagInfo: authorization status, optional expiry date (seconds),
optional parent id tag. -/
structure IdTagInfoL where
  status : AuthorizationStatus
  expiryDate : Option Int
  parentIdTag : Option String
  deriving DecidableEq, Repr

/-- Outcome of the queued-availability-change and bookkeeping part of
`ChargePoint::handleStopTransactionResponse`: the availability change
applied (persisted + FSM event + callback), the
`change_availability_queue` afterwards, the authorization-cache write (id
tag and info), and the message id passed to
`erase_stopped_transaction`. -/
structure StopTransactionResponseOutcome where
  applied : Option (Int × AvailabilityType)
  queue_after : List (Int × AvailabilityType)
  cache_write : Option (String × IdTagInfoL)
  erased_message_id : String
  deriving DecidableEq, Repr

/-- `ChargePoint::handleStopTransactionResponse`
(charge_point.cpp:1338-1385).  The source sets `connector = 1` with a
`TODO(piet): Fix this for multiple connectors` comment; the message id of
the response (`uniqueId`) is used for the `get_authorized_id_tag` cache
lookup and for `erase_stopped_transaction`, but not to recover the
connector.  The queue is an association list keyed by connector;
`change_availability_queue.erase(connector)` removes the key (the C++
`operator[]` read inserts a default entry when absent, which the
subsequent `erase` removes again, so an absent key stays absent). -/
def handleStopTransactionResponse
    (change_availability_queue : List (Int × AvailabilityType))
    (uniqueId : String) (idTagInfo : Option IdTagInfoL)
    (get_authorized_id_tag : String → Option String) :
    StopTransactionResponseOutcome :=
  let connector : Int := 1
  let cache_write :=
    match idTagInfo with
    | none => none
    | some info =>
      (get_authorized_id_tag uniqueId).map (fun tag => (tag, info))
  let change_queued := (change_availability_queue.lookup connector).isSome
  let queue_after :=
    change_availability_queue.filter (fun p => p.1 ≠ connector)
  let applied :=
    if change_queued then
      (change_availability_queue.lookup connector).map
        (fun a => (connector, a))
    else none
  { applied := applied, queue_after := queue_after,
    cache_write := cache_write, erased_message_id := uniqueId }

/-- One entry of a SendLocalList request's `localAuthorizationList`: an
id tag with an optional IdTagInfo (absent info means removal in a
differential update). -/
structure AuthorizationData where
  idTag : String
  idTagInfo : Option IdTagInfoL
  deriving DecidableEq, Repr

/-- The persisted local authorization list: version plus entries, as held
by the durable store (`database_handler`, external to the modelled
source file).  Store operation `insert_or_update_local_authorization_list`
is modelled as per-entry upsert (remove on absent info);
`insert_or_update_local_list_version` overwrites the version;
`clear_local_authorization_list` empties the entries.  The claims about
this handler depend only on the version. -/
structure LocalListDB where
  version : Int
  entries : List (String × IdTagInfoL)
  deriving DecidableEq, Repr

/-- Upsert of one `AuthorizationData` entry into the stored entries. -/
def upsertAuthorizationData (entries : List (String × IdTagInfoL))
    (d : AuthorizationData) : List (String × IdTagInfoL) :=
  match d.idTagInfo with
  | none => entries.filter (fun p => p.1 ≠ d.idTag)
  | some info => (entries.filter (fun p => p.1 ≠ d.idTag)) ++ [(d.idTag, info)]

/-- `database_handler->insert_or_update_local_authorization_list`. -/
def insertOrUpdateLocalAuthorizationList
    (entries : List (String × IdTagInfoL)) (l : List AuthorizationData) :
    List (String × IdTagInfoL) :=
  l.foldl upsertAuthorizationData entries

/-- `ChargePoint::handleSendLocalListRequest`
(charge_point.cpp:1918-1955).  Returns the response status and the store
afterwards.
* LocalAuthList disabled: NotSupported, store untouched.
* Full with a list: clear, set version to the request's `listVersion`,
  insert the list; Accepted.
* Full without a list: set version, clear; Accepted.
* Differential with a list: only when the stored version is strictly
  below the request's `listVersion`, set the version and merge the list
  (Accepted); otherwise VersionMismatch.
* Differential without a list: status stays Failed. -/
def handleSendLocalListRequest (local_auth_list_enabled : Bool)
    (db : LocalListDB) (listVersion : Int)
    (localAuthorizationList : Option (List AuthorizationData))
    (updateType : UpdateType) : UpdateStatus × LocalListDB :=
  if !local_auth_list_enabled then
    (UpdateStatus.NotSupported, db)
  else if updateType = UpdateType.Full then
    match localAuthorizationList with
    | some l =>
      (UpdateStatus.Accepted,
        { version := listVersion,
          entries := insertOrUpdateLocalAuthorizationList [] l })
    | none =>
      (UpdateStatus.Accepted, { version := listVersion, entries := [] })
  else
    match localAuthorizationList with
    | some l =>
      if db.version < listVersion then
        (UpdateStatus.Accepted,
          { version := listVersion,
            entries := insertOrUpdateLocalAuthorizationList db.entries l })
      else
        (UpdateStatus.VersionMismatch, db)
    | none => (UpdateStatus.Failed, db)

/-- `ChargePoint::handleGetLocalListVersionRequest`
(charge_point.cpp:1957-1971).  Returns the `listVersion` of the response
and the frame sent for it (a CallResult, sent through the ungated
`send<CallResult>` path).  When the LocalAuthListManagement feature
profile is not in `getSupportedFeatureProfilesSet()`, the reported
version is `-1`; otherwise it is `get_local_list_version()` from the
store. -/
def handleGetLocalListVersionRequest
    (supported_feature_profiles : List SupportedFeatureProfiles)
    (stored_version : Int) : Int × Frame :=
  let listVersion :=
    if !(supported_feature_profiles.contains
          SupportedFeatureProfiles.LocalAuthListManagement) then
      (-1 : Int)
    else stored_version
  (listVersion, Frame.callResult MessageType.GetLocalListVersionResponse)

/-- `ChargingProfilePurposeType` (only the purpose matters to the
modelled RemoteStartTransaction path). -/
inductive ChargingProfilePurposeType where
  | ChargePointMaxProfile
  | TxDefaultProfile
  | TxProfile
  deriving DecidableEq, Repr

/-- Outcome of `ChargePoint::handleRemoteStartTransactionRequest`: the
response status, the `provide_token_callback` invocation
`(idTag, referenced_connectors, prevalidated)` when one happens, and
whether a TxProfile was installed via `add_tx_profile`. -/
structure RemoteStartOutcome where
  status : RemoteStartStopStatus
  provide_token : Option (String × List Int × Bool)
  tx_profile_added : Bool
  deriving DecidableEq, Repr

/-- `ChargePoint::handleRemoteStartTransactionRequest`
(charge_point.cpp:1144-1218).  `transaction_present c` models
`transaction_handler->get_transaction(c) != nullptr`, `connector_status`
models `status->get_state`, `profile_valid` the result of
`smart_charging_handler->validate_profile` (code outside the modelled
source file).  The guard block runs only when a `connectorId` is present:
id 0, an Inoperative connector, or a present/Finishing transaction each
reject.  A supplied charging profile is installed only when a
`connectorId` is present, the purpose is TxProfile and validation
succeeds; otherwise the request is rejected.  Reaching the final block
always accepts and invokes the provide-token callback with all physical
connectors (no `connectorId`) or the single requested one, with
`prevalidated = !AuthorizeRemoteTxRequests`. -/
def handleRemoteStartTransactionRequest (number_of_connectors : Nat)
    (get_connector_availability : Int → AvailabilityType)
    (transaction_present : Int → Bool)
    (connector_status : Int → ChargePointStatus)
    (authorize_remote_tx_requests : Bool) (profile_valid : Bool)
    (idTag : String) (connectorId : Option Int)
    (chargingProfilePurpose : Option ChargingProfilePurposeType) :
    RemoteStartOutcome :=
  let rejected : RemoteStartOutcome :=
    { status := RemoteStartStopStatus.Rejected, provide_token := none,
      tx_profile_added := false }
  let guard_rejects :=
    match connectorId with
    | none => false
    | some c =>
      c = 0 ||
        get_connector_availability c = AvailabilityType.Inoperative ||
        (transaction_present c ||
          connector_status c = ChargePointStatus.Finishing)
  if guard_rejects then rejected
  else
    let profile_install :=
      match chargingProfilePurpose with
      | none => some false
      | some purpose =>
        if connectorId.isSome ∧
            purpose = ChargingProfilePurposeType.TxProfile ∧
            profile_valid = true then
          some true
        else none
    match profile_install with
    | none => rejected
    | some added =>
      let referenced_connectors :=
        match connectorId with
        | none => physicalConnectors number_of_connectors
        | some c => [c]
      { status := RemoteStartStopStatus.Accepted,
        provide_token :=
          some (idTag, referenced_connectors, !authorize_remote_tx_requests),
        tx_profile_added := added }

/-- `ChargePoint::validate_against_cache_entries`
(charge_point.cpp:1220-1245) on the cache entry stored for the id tag.
Returns the boolean result together with the cache entry for that tag
after the call (the source persists `status := Expired` via
`insert_or_update_authorization_cache_entry` exactly when the entry was
Accepted with an expiry date strictly before now). -/
def validate_against_cache_entries (cache_entry : Option IdTagInfoL)
    (now : Int) : Bool × Option IdTagInfoL :=
  match cache_entry with
  | none => (false, none)
  | some e =>
    if e.status = AuthorizationStatus.Accepted then
      match e.expiryDate with
      | some expiry_date =>
        if expiry_date < now then
          (false, some { e with status := AuthorizationStatus.Expired })
        else (true, some e)
      | none => (true, some e)
    else (false, some e)

/-- The configuration flags read by `ChargePoint::authorize_id_token`. -/
structure AuthConfig where
  local_pre_authorize : Bool
  local_authorize_offline : Bool
  local_auth_list_enabled : Bool
  authorization_cache_enabled : Bool
  allow_offline_tx_for_unknown_id : Option Bool
  deriving DecidableEq, Repr

/-- The `EnhancedMessage` the Authorize future resolves with: the parsed
message type, the queue's `offline` flag (set when the future is resolved
without a response), and the response's IdTagInfo (meaningful when
`messageType = AuthorizeResponse`). -/
structure EnhancedAuthMessage where
  messageType : MessageType
  offline : Bool
  response_id_tag_info : IdTagInfoL
  deriving DecidableEq, Repr

/-- Outcome of `ChargePoint::authorize_id_token`: the returned IdTagInfo,
the authorization-cache entry for the id tag after the call, and whether
an Authorize request was sent (i.e. the local list / cache did not settle
the lookup). -/
structure AuthorizeOutcome where
  result : IdTagInfoL
  cache_after : Option IdTagInfoL
  sent_authorize : Bool
  deriving DecidableEq, Repr

/-- The tail of `ChargePoint::authorize_id_token`
(charge_point.cpp:2072-2095), reached when neither the local list nor the
cache settles the lookup: an Authorize request is sent and its future
awaited.  `cache1` is the cache entry for the id tag at this point.  An
AuthorizeResponse is returned as-is, and cached when its status is
Accepted; with no response and `offline` set, AllowOfflineTxForUnknownId
being set and true yields Accepted; every remaining case falls through to
Invalid. -/
def authorize_request_path (cfg : AuthConfig)
    (cache1 : Option IdTagInfoL) (enhanced : EnhancedAuthMessage) :
    AuthorizeOutcome :=
  if enhanced.messageType = MessageType.AuthorizeResponse then
    let info := enhanced.response_id_tag_info
    if info.status = AuthorizationStatus.Accepted then
      { result := info, cache_after := some info, sent_authorize := true }
    else
      { result := info, cache_after := cache1, sent_authorize := true }
  else if enhanced.offline then
    if cfg.allow_offline_tx_for_unknown_id = some true then
      { result := { status := AuthorizationStatus.Accepted,
                    expiryDate := none, parentIdTag := none },
        cache_after := cache1, sent_authorize := true }
    else
      { result := { status := AuthorizationStatus.Invalid,
                    expiryDate := none, parentIdTag := none },
        cache_after := cache1, sent_authorize := true }
  else
    { result := { status := AuthorizationStatus.Invalid,
                  expiryDate := none, parentIdTag := none },
      cache_after := cache1, sent_authorize := true }

/-- `ChargePoint::authorize_id_token` (charge_point.cpp:2047-2096).
`websocket_connected` is `websocket->is_connected()`, `local_list_entry`
the store's local-list entry for the id tag, `cache_entry` the store's
cache entry for it, `enhanced` the message the Authorize future resolves
with (only consulted when the request is actually sent).
The local path is taken when
`(LocalPreAuthorize ∧ connected) ∨ (LocalAuthorizeOffline ∧ ¬connected)`:
a local-list hit wins outright; otherwise a cache entry passing
`validate_against_cache_entries` is returned (the failed validation of
an expired entry persists `Expired`).  Failing that, an Authorize request
is sent: an AuthorizeResponse is returned as-is (cached when Accepted);
otherwise, when offline, AllowOfflineTxForUnknownId set to true yields
Accepted; every remaining case yields Invalid. -/
def authorize_id_token (cfg : AuthConfig) (websocket_connected : Bool)
    (local_list_entry : Option IdTagInfoL)
    (cache_entry : Option IdTagInfoL) (now : Int)
    (enhanced : EnhancedAuthMessage) : AuthorizeOutcome :=
  let local_path :=
    (cfg.local_pre_authorize && websocket_connected) ||
      (cfg.local_authorize_offline && !websocket_connected)
  match (if local_path && cfg.local_auth_list_enabled then
          local_list_entry
        else none) with
  | some info =>
    { result := info, cache_after := cache_entry, sent_authorize := false }
  | none =>
    let consult_cache := local_path && cfg.authorization_cache_enabled
    let validated := validate_against_cache_entries cache_entry now
    let cache1 := if consult_cache then validated.2 else cache_entry
    if consult_cache && validated.1 then
      match cache1 with
      | some info =>
        { result := info, cache_after := cache1, sent_authorize := false }
      | none =>
        -- unreachable: validation succeeds only on a present entry
        { result := { status := AuthorizationStatus.Invalid,
                      expiryDate := none, parentIdTag := none },
          cache_after := cache1, sent_authorize := false }
    else authorize_request_path cfg cache1 enhanced

/-- An outbound Call built inside `connected_callback`
(`status_notification` builds a StatusNotification Call; a boot path
would build a BootNotification Call). -/
inductive OutboundCall where
  | statusNotificationCall (connector : Int) (status : ChargePointStatus)
  | bootNotificationCall
  deriving DecidableEq, Repr

/-- The connector a StatusNotification Call refers to. -/
def outboundConnector : OutboundCall → Option Int
  | OutboundCall.statusNotificationCall c _ => some c
  | OutboundCall.bootNotificationCall => none

/-- `ChargePoint::connected_callback` (charge_point.cpp:650-672).
Returns the connection state afterwards and the Calls pushed to the
message queue.  In state Disconnected the state becomes Connected and
nothing is sent.  In state Booted the loop over connectors
`0 .. NumberOfConnectors` (inclusive) calls `status_notification`, which
builds a StatusNotification Call and hands it to `send<Call>`, i.e.
through `allowed_to_send_message`; no BootNotification is built on this
path.  Any other state only logs. -/
def connected_callback (connection_state : ChargePointConnectionState)
    (number_of_connectors : Nat) (get_state : Int → ChargePointStatus)
    (gate : SendGateState) (now : Int) :
    ChargePointConnectionState × List OutboundCall :=
  match connection_state with
  | ChargePointConnectionState.Disconnected =>
    (ChargePointConnectionState.Connected, [])
  | ChargePointConnectionState.Booted =>
    let pushed :=
      ((List.range (number_of_connectors + 1)).map
          (fun i => (i : Int))).filterMap (fun c =>
        if allowed_to_send_message gate now MessageType.StatusNotification
        then some (OutboundCall.statusNotificationCall c (get_state c))
        else none)
    (ChargePointConnectionState.Booted, pushed)
  | s => (s, [])

/-- The dispatch decision of `ChargePoint::message_callback`
(charge_point.cpp:694-732) in connection state `Pending`: with
registration status Pending, a BootNotificationResponse goes to the boot
handler and every other (supported) message type is handed to
`handle_message`; with any other registration status nothing is
dispatched. -/
def pending_state_dispatches_to_handle_message
    (registration_status : RegistrationStatus) (mt : MessageType) : Bool :=
  registration_status = RegistrationStatus.Pending &&
    mt ≠ MessageType.BootNotificationResponse

/-! ## Theorems settling the claims -/

/-- C1: the claim says that with registration Rejected and `initialized`,
`allowed_to_send_message` permits nothing before
`boot_time + heartbeat_interval` and afterwards permits only a
BootNotification.  The code keeps the first half but not the second: at
the concrete failing input (Rejected, boot_time 0, HeartbeatInterval 60)
a Heartbeat Call is blocked at time 59 and permitted at time 60, even
though it is not a BootNotification. -/
theorem rejected_gate_permits_any_message_after_window :
    allowed_to_send_message
      { initialized := true,
        registration_status := RegistrationStatus.Rejected,
        boot_time := 0, heartbeat_interval := 60 } 59
      MessageType.Heartbeat = false ∧
    allowed_to_send_message
      { initialized := true,
        registration_status := RegistrationStatus.Rejected,
        boot_time := 0, heartbeat_interval := 60 } 60
      MessageType.Heartbeat = true ∧
    MessageType.Heartbeat ≠ MessageType.BootNotification := by
  decide

/-- C2 counterexample: in connection state Pending (registration
Pending), an inbound GetLocalListVersion is dispatched to its handler,
whose CallResult response goes through the ungated
`send<CallResult>` path and is transmitted, although registration has not
become Accepted and the message is neither a BootNotification nor a
StopTransaction. -/
theorem call_result_transmitted_while_pending :
    pending_state_dispatches_to_handle_message RegistrationStatus.Pending
        MessageType.GetLocalListVersion = true ∧
    (handleGetLocalListVersionRequest [] 0).2 =
      Frame.callResult MessageType.GetLocalListVersionResponse ∧
    transmits
      { initialized := true,
        registration_status := RegistrationStatus.Pending,
        boot_time := 0, heartbeat_interval := 60 } 0
      (Frame.callResult MessageType.GetLocalListVersionResponse) = true ∧
    MessageType.GetLocalListVersionResponse ≠
      MessageType.BootNotification ∧
    MessageType.GetLocalListVersionResponse ≠
      MessageType.StopTransaction := by
  decide

/-- C2 amended: before registration is Accepted, the gated outbound Call
path lets only BootNotification and StopTransaction through whenever the
charge point is uninitialized or its registration status is Pending (the
Rejected state after the retry window, and the ungated
CallResult/CallError paths, are the exceptions exhibited by the
counterexamples). -/
theorem gated_call_path_before_accepted (s : SendGateState) (now : Int)
    (mt : MessageType)
    (h : s.initialized = false ∨
      s.registration_status = RegistrationStatus.Pending)
    (hallow : allowed_to_send_message s now mt = true) :
    mt = MessageType.BootNotification ∨
      mt = MessageType.StopTransaction := by
  unfold allowed_to_send_message at hallow
  rcases h with h | h
  · rw [h] at hallow
    simpa using hallow
  · rw [h] at hallow
    cases hi : s.initialized <;> rw [hi] at hallow <;> simpa using hallow

/-- Witness for the C2 amended theorem at a concrete uninitialized
state. -/
theorem gated_call_path_before_accepted_witness :
    MessageType.BootNotification = MessageType.BootNotification ∨
      MessageType.BootNotification = MessageType.StopTransaction :=
  gated_call_path_before_accepted
    { initialized := false,
      registration_status := RegistrationStatus.Accepted,
      boot_time := 0, heartbeat_interval := 60 } 0
    MessageType.BootNotification (Or.inl rfl) (by decide)

/-- C3: at the concrete failing input (one connector, an active
transaction on connector 1, ChangeAvailability targeting connector 1 with
Inoperative) the response is Scheduled but nothing is recorded in the
per-connector change_availability_queue, so the change can never be
applied at StopTransactionResponse; the claim (and spec scenario S3)
requires the requested type to be queued for the connector. -/
theorem scheduled_without_queueing_on_direct_connector :
    handleChangeAvailabilityRequest 1 (fun c => c == 1) 1
        AvailabilityType.Inoperative =
      { status := AvailabilityStatus.Scheduled, queued := [],
        persisted_connectors := [], events := [] } ∧
    handleChangeAvailabilityRequest 1 (fun c => c == 1) 0
        AvailabilityType.Inoperative =
      { status := AvailabilityStatus.Scheduled,
        queued := [(1, AvailabilityType.Inoperative)],
        persisted_connectors := [], events := [] } := by
  decide

/-- C4: for every StopTransactionResponse, the availability change
applied by handleStopTransactionResponse is exactly the one queued for
connector 1, whatever the response's message id and whatever the
message-id-to-id-tag lookup yield — the connector is hard-coded, not
recovered from the stopped transaction. -/
theorem stop_transaction_response_applies_connector_one
    (queue : List (Int × AvailabilityType)) (uniqueId : String)
    (idTagInfo : Option IdTagInfoL)
    (get_authorized_id_tag : String → Option String) :
    (handleStopTransactionResponse queue uniqueId idTagInfo
        get_authorized_id_tag).applied =
      (queue.lookup 1).map (fun a => ((1 : Int), a)) := by
  unfold handleStopTransactionResponse
  cases h : queue.lookup 1 <;> simp [h]

/-- C9: the GetLocalListVersion handler reports the stored version when
the LocalAuthListManagement feature profile is configured and -1
otherwise. -/
theorem get_local_list_version_reporting
    (supported : List SupportedFeatureProfiles) (stored : Int) :
    (handleGetLocalListVersionRequest supported stored).1 =
      if supported.contains SupportedFeatureProfiles.LocalAuthListManagement
      then stored else (-1 : Int) := by
  unfold handleGetLocalListVersionRequest
  by_cases h :
      supported.contains SupportedFeatureProfiles.LocalAuthListManagement <;>
    simp [h]

/-- C10: a RemoteStartTransaction without connectorId and without
chargingProfile is Accepted whatever the connector availabilities,
transactions and FSM states are, and the provide-token callback receives
all physical connector ids 1..NumberOfConnectors with
prevalidated = !AuthorizeRemoteTxRequests. -/
theorem remote_start_without_connector_accepted (number_of_connectors : Nat)
    (get_connector_availability : Int → AvailabilityType)
    (transaction_present : Int → Bool)
    (connector_status : Int → ChargePointStatus)
    (authorize_remote_tx_requests : Bool) (profile_valid : Bool)
    (idTag : String) :
    handleRemoteStartTransactionRequest number_of_connectors
        get_connector_availability transaction_present connector_status
        authorize_remote_tx_requests profile_valid idTag none none =
      { status := RemoteStartStopStatus.Accepted,
        provide_token := some (idTag,
          physicalConnectors number_of_connectors,
          !authorize_remote_tx_requests),
        tx_profile_added := false } := by
  rfl

/-- C5 counterexample: a Full SendLocalList with listVersion 3 against a
store holding version 5 is Accepted, yet the stored version afterwards is
3, strictly below the previous version. -/
theorem accepted_full_update_decreases_version :
    (handleSendLocalListRequest true { version := 5, entries := [] } 3
        (some []) UpdateType.Full).1 = UpdateStatus.Accepted ∧
    (handleSendLocalListRequest true { version := 5, entries := [] } 3
        (some []) UpdateType.Full).2.version = 3 ∧
    ¬((5 : Int) ≤ 3) := by
  decide

/-- C5 amended: after an accepted Differential SendLocalList the stored
version strictly increases (hence is ≥ the previous version); an
accepted Full update sets the stored version to the request's
listVersion unconditionally, which can decrease it. -/
theorem send_local_list_version_change (local_auth_list_enabled : Bool)
    (db : LocalListDB) (listVersion : Int)
    (l : Option (List AuthorizationData)) :
    ((handleSendLocalListRequest local_auth_list_enabled db listVersion l
        UpdateType.Differential).1 = UpdateStatus.Accepted →
      db.version <
        (handleSendLocalListRequest local_auth_list_enabled db listVersion
          l UpdateType.Differential).2.version) ∧
    ((handleSendLocalListRequest local_auth_list_enabled db listVersion l
        UpdateType.Full).1 = UpdateStatus.Accepted →
      (handleSendLocalListRequest local_auth_list_enabled db listVersion l
        UpdateType.Full).2.version = listVersion) := by
  cases he : local_auth_list_enabled
  · constructor <;> intro h <;> simp [handleSendLocalListRequest] at h
  · constructor
    · intro h
      cases l with
      | none => simp [handleSendLocalListRequest] at h
      | some l' =>
        by_cases hv : db.version < listVersion
        · simp [handleSendLocalListRequest, hv]
        · simp [handleSendLocalListRequest, hv] at h
    · intro h
      cases l <;> simp [handleSendLocalListRequest]

/-- Witness for the C5 amended theorem: an accepted Differential update
from version 1 to 2 increases the stored version, and a Full update to
listVersion 2 stores 2. -/
theorem send_local_list_version_change_witness :
    ({ version := 1, entries := [] } : LocalListDB).version <
      (handleSendLocalListRequest true { version := 1, entries := [] } 2
        (some []) UpdateType.Differential).2.version :=
  (send_local_list_version_change true { version := 1, entries := [] } 2
    (some [])).1 (by decide)

/-- Helper: behaviour of the Authorize-request tail when the future does
not resolve with an AuthorizeResponse: the cache is left as it was, the
request was sent, and the status is Accepted exactly when offline with
AllowOfflineTxForUnknownId set to true, Invalid otherwise. -/
theorem authorize_request_path_no_response (cfg : AuthConfig)
    (cache1 : Option IdTagInfoL) (enhanced : EnhancedAuthMessage)
    (hmt : enhanced.messageType ≠ MessageType.AuthorizeResponse) :
    (authorize_request_path cfg cache1 enhanced).cache_after = cache1 ∧
    (authorize_request_path cfg cache1 enhanced).sent_authorize = true ∧
    (authorize_request_path cfg cache1 enhanced).result.status =
      (if enhanced.offline &&
          (cfg.allow_offline_tx_for_unknown_id = some true) then
        AuthorizationStatus.Accepted
      else AuthorizationStatus.Invalid) := by
  unfold authorize_request_path
  cases ho : enhanced.offline <;>
    by_cases ha : cfg.allow_offline_tx_for_unknown_id = some true <;>
    simp [hmt, ho, ha]

/-- C6 counterexample: with LocalAuthorizeOffline, the cache enabled, an
Accepted cache entry expired at time 0, the charge point offline at time
1 and AllowOfflineTxForUnknownId set to true, authorize_id_token returns
status Accepted — not Invalid as the claim states — although the cache
entry is rewritten to Expired. -/
theorem expired_cache_entry_can_return_accepted :
    (authorize_id_token
        { local_pre_authorize := false, local_authorize_offline := true,
          local_auth_list_enabled := false,
          authorization_cache_enabled := true,
          allow_offline_tx_for_unknown_id := some true }
        false none
        (some { status := AuthorizationStatus.Accepted,
                expiryDate := some 0, parentIdTag := none }) 1
        { messageType := MessageType.Heartbeat, offline := true,
          response_id_tag_info :=
            { status := AuthorizationStatus.Invalid, expiryDate := none,
              parentIdTag := none } }).result.status =
      AuthorizationStatus.Accepted ∧
    (authorize_id_token
        { local_pre_authorize := false, local_authorize_offline := true,
          local_auth_list_enabled := false,
          authorization_cache_enabled := true,
          allow_offline_tx_for_unknown_id := some true }
        false none
        (some { status := AuthorizationStatus.Accepted,
                expiryDate := some 0, parentIdTag := none }) 1
        { messageType := MessageType.Heartbeat, offline := true,
          response_id_tag_info :=
            { status := AuthorizationStatus.Invalid, expiryDate := none,
              parentIdTag := none } }).cache_after =
      some { status := AuthorizationStatus.Expired, expiryDate := some 0,
             parentIdTag := none } := by
  decide

/-- C6 amended: reading an Accepted cache entry whose expiry date is
before now (while the local-path condition holds, the cache is enabled
and the local list misses) persists the entry with status Expired and
falls through to the Authorize request; the result is Invalid exactly
when that path yields Invalid — in particular whenever the awaited
future resolves offline and AllowOfflineTxForUnknownId is not set to
true. -/
theorem expired_cache_entry_persists_expired (cfg : AuthConfig)
    (websocket_connected : Bool) (e : IdTagInfoL) (expiry now : Int)
    (enhanced : EnhancedAuthMessage)
    (hpath : ((cfg.local_pre_authorize && websocket_connected) ||
      (cfg.local_authorize_offline && !websocket_connected)) = true)
    (hcache : cfg.authorization_cache_enabled = true)
    (hstatus : e.status = AuthorizationStatus.Accepted)
    (hexp : e.expiryDate = some expiry) (hlt : expiry < now)
    (hmt : enhanced.messageType ≠ MessageType.AuthorizeResponse) :
    (authorize_id_token cfg websocket_connected none (some e) now
        enhanced).cache_after =
      some { e with status := AuthorizationStatus.Expired } ∧
    (authorize_id_token cfg websocket_connected none (some e) now
        enhanced).sent_authorize = true ∧
    (enhanced.offline = true →
      cfg.allow_offline_tx_for_unknown_id ≠ some true →
      (authorize_id_token cfg websocket_connected none (some e) now
        enhanced).result.status = AuthorizationStatus.Invalid) := by
  have hauth : authorize_id_token cfg websocket_connected none (some e)
      now enhanced =
      authorize_request_path cfg
        (some { e with status := AuthorizationStatus.Expired }) enhanced := by
    unfold authorize_id_token validate_against_cache_entries
    simp [hpath, hcache, hstatus, hexp, hlt]
  have h := authorize_request_path_no_response cfg
    (some { e with status := AuthorizationStatus.Expired }) enhanced hmt
  rw [hauth]
  refine ⟨h.1, h.2.1, ?_⟩
  intro hoff hallow
  rw [h.2.2, hoff]
  simp [hallow]

/-- Witness for the C6 amended theorem: offline charge point,
LocalAuthorizeOffline and cache enabled, entry Accepted with expiry 0
read at time 1, AllowOfflineTxForUnknownId unset. -/
theorem expired_cache_entry_persists_expired_witness :
    (authorize_id_token
        { local_pre_authorize := false, local_authorize_offline := true,
          local_auth_list_enabled := false,
          authorization_cache_enabled := true,
          allow_offline_tx_for_unknown_id := none }
        false none
        (some { status := AuthorizationStatus.Accepted,
                expiryDate := some 0, parentIdTag := none }) 1
        { messageType := MessageType.Heartbeat, offline := true,
          response_id_tag_info :=
            { status := AuthorizationStatus.Invalid, expiryDate := none,
              parentIdTag := none } }).cache_after =
      some { status := AuthorizationStatus.Expired, expiryDate := some 0,
             parentIdTag := none } ∧
    (authorize_id_token
        { local_pre_authorize := false, local_authorize_offline := true,
          local_auth_list_enabled := false,
          authorization_cache_enabled := true,
          allow_offline_tx_for_unknown_id := none }
        false none
        (some { status := AuthorizationStatus.Accepted,
                expiryDate := some 0, parentIdTag := none }) 1
        { messageType := MessageType.Heartbeat, offline := true,
          response_id_tag_info :=
            { status := AuthorizationStatus.Invalid, expiryDate := none,
              parentIdTag := none } }).sent_authorize = true ∧
    (true = true → (none : Option Bool) ≠ some true →
      (authorize_id_token
        { local_pre_authorize := false, local_authorize_offline := true,
          local_auth_list_enabled := false,
          authorization_cache_enabled := true,
          allow_offline_tx_for_unknown_id := none }
        false none
        (some { status := AuthorizationStatus.Accepted,
                expiryDate := some 0, parentIdTag := none }) 1
        { messageType := MessageType.Heartbeat, offline := true,
          response_id_tag_info :=
            { status := AuthorizationStatus.Invalid, expiryDate := none,
              parentIdTag := none } }).result.status =
      AuthorizationStatus.Invalid) :=
  expired_cache_entry_persists_expired
    { local_pre_authorize := false, local_authorize_offline := true,
      local_auth_list_enabled := false,
      authorization_cache_enabled := true,
      allow_offline_tx_for_unknown_id := none }
    false
    { status := AuthorizationStatus.Accepted, expiryDate := some 0,
      parentIdTag := none } 0 1
    { messageType := MessageType.Heartbeat, offline := true,
      response_id_tag_info :=
        { status := AuthorizationStatus.Invalid, expiryDate := none,
          parentIdTag := none } }
    (by decide) (by decide) (by decide) (by decide) (by decide) (by decide)

/-- Helper: when authorize_id_token reports that an Authorize request was
sent, neither the local list nor the cache settled the lookup and the
outcome is that of the request tail, with the cache state left by the
cache validation (when consulted). -/
theorem authorize_id_token_sent_eq (cfg : AuthConfig)
    (websocket_connected : Bool)
    (local_list_entry cache_entry : Option IdTagInfoL) (now : Int)
    (enhanced : EnhancedAuthMessage)
    (hsent : (authorize_id_token cfg websocket_connected local_list_entry
      cache_entry now enhanced).sent_authorize = true) :
    authorize_id_token cfg websocket_connected local_list_entry
        cache_entry now enhanced =
      authorize_request_path cfg
        (if (((cfg.local_pre_authorize && websocket_connected ||
            cfg.local_authorize_offline && !websocket_connected)) &&
            cfg.authorization_cache_enabled) = true then
          (validate_against_cache_entries cache_entry now).2
        else cache_entry) enhanced := by
  revert hsent
  unfold authorize_id_token
  dsimp only
  split
  · intro h; simp at h
  · split
    · split
      · intro h; simp at h
      · intro h; simp at h
    · intro h; rfl

/-- C7: whenever authorize_id_token actually sends an Authorize request
and the awaited future resolves offline (hence without an
AuthorizeResponse), the returned status is Accepted when
AllowOfflineTxForUnknownId is set and true, Invalid otherwise. -/
theorem authorize_offline_policy (cfg : AuthConfig)
    (websocket_connected : Bool)
    (local_list_entry cache_entry : Option IdTagInfoL) (now : Int)
    (enhanced : EnhancedAuthMessage)
    (hsent : (authorize_id_token cfg websocket_connected local_list_entry
      cache_entry now enhanced).sent_authorize = true)
    (hoff : enhanced.offline = true)
    (hmt : enhanced.messageType ≠ MessageType.AuthorizeResponse) :
    (authorize_id_token cfg websocket_connected local_list_entry
        cache_entry now enhanced).result.status =
      (if cfg.allow_offline_tx_for_unknown_id = some true then
        AuthorizationStatus.Accepted
      else AuthorizationStatus.Invalid) := by
  rw [authorize_id_token_sent_eq cfg websocket_connected local_list_entry
    cache_entry now enhanced hsent]
  have h := authorize_request_path_no_response cfg
    (if (((cfg.local_pre_authorize && websocket_connected ||
        cfg.local_authorize_offline && !websocket_connected)) &&
        cfg.authorization_cache_enabled) = true then
      (validate_against_cache_entries cache_entry now).2
    else cache_entry) enhanced hmt
  rw [h.2.2, hoff]
  by_cases ha : cfg.allow_offline_tx_for_unknown_id = some true <;>
    simp [ha]

/-- Witness for the C7 theorem: all local authorization disabled, the
future resolves offline, AllowOfflineTxForUnknownId unset: the result is
Invalid. -/
theorem authorize_offline_policy_witness :
    (authorize_id_token
        { local_pre_authorize := false, local_authorize_offline := false,
          local_auth_list_enabled := false,
          authorization_cache_enabled := false,
          allow_offline_tx_for_unknown_id := none }
        false none none 0
        { messageType := MessageType.Heartbeat, offline := true,
          response_id_tag_info :=
            { status := AuthorizationStatus.Invalid, expiryDate := none,
              parentIdTag := none } }).result.status =
      AuthorizationStatus.Invalid :=
  authorize_offline_policy
    { local_pre_authorize := false, local_authorize_offline := false,
      local_auth_list_enabled := false,
      authorization_cache_enabled := false,
      allow_offline_tx_for_unknown_id := none }
    false none none 0
    { messageType := MessageType.Heartbeat, offline := true,
      response_id_tag_info :=
        { status := AuthorizationStatus.Invalid, expiryDate := none,
          parentIdTag := none } }
    (by decide) (by decide) (by decide)

/-- C8: a reconnect in Booted state (where the charge point is
initialized with registration Accepted) pushes exactly one
StatusNotification Call for each connector 0..NumberOfConnectors, in
order, and no BootNotification Call. -/
theorem booted_reconnect_status_notifications (n : Nat)
    (get_state : Int → ChargePointStatus) (gate : SendGateState)
    (now : Int) (hinit : gate.initialized = true)
    (hreg : gate.registration_status = RegistrationStatus.Accepted) :
    ((connected_callback ChargePointConnectionState.Booted n get_state
        gate now).2.filterMap outboundConnector =
      (List.range (n + 1)).map (fun i => (i : Int))) ∧
    ∀ m ∈ (connected_callback ChargePointConnectionState.Booted n
        get_state gate now).2, m ≠ OutboundCall.bootNotificationCall := by
  have hallow : allowed_to_send_message gate now
      MessageType.StatusNotification = true := by
    unfold allowed_to_send_message
    rw [hinit, hreg]
    simp
  have hout : (connected_callback ChargePointConnectionState.Booted n
      get_state gate now).2 =
      ((List.range (n + 1)).map (fun i => (i : Int))).map (fun c =>
        OutboundCall.statusNotificationCall c (get_state c)) := by
    unfold connected_callback
    have hfun : (fun (c : Int) =>
        if allowed_to_send_message gate now MessageType.StatusNotification
        then some (OutboundCall.statusNotificationCall c (get_state c))
        else none) =
        fun (c : Int) => some (OutboundCall.statusNotificationCall c
          (get_state c)) := by
      funext c
      rw [hallow]
      rfl
    rw [hfun]
    exact congrFun (List.filterMap_eq_map _) _
  constructor
  · rw [hout, List.filterMap_map]
    exact List.filterMap_some _
  · intro m hm
    rw [hout] at hm
    simp only [List.mem_map] at hm
    obtain ⟨a, _, hEq⟩ := hm
    subst hEq
    simp

/-- Witness for the C8 theorem with two connectors and a concrete Booted
gate state. -/
theorem booted_reconnect_status_notifications_witness :
    ((connected_callback ChargePointConnectionState.Booted 2
        (fun _ => ChargePointStatus.Available)
        { initialized := true,
          registration_status := RegistrationStatus.Accepted,
          boot_time := 0, heartbeat_interval := 60 } 0).2.filterMap
        outboundConnector =
      (List.range (2 + 1)).map (fun i => (i : Int))) ∧
    ∀ m ∈ (connected_callback ChargePointConnectionState.Booted 2
        (fun _ => ChargePointStatus.Available)
        { initialized := true,
          registration_status := RegistrationStatus.Accepted,
          boot_time := 0, heartbeat_interval := 60 } 0).2,
      m ≠ OutboundCall.bootNotificationCall :=
  booted_reconnect_status_notifications 2
    (fun _ => ChargePointStatus.Available)
    { initialized := true,
      registration_status := RegistrationStatus.Accepted,
      boot_time := 0, heartbeat_interval := 60 } 0 rfl rfl

end OCPP16
